import Mathlib

/-!
Verification of the Qualer MCP gateway (`qualer_mcp_server.py`).

The server is a thin pass-through layer: each tool builds one HTTP request,
sends it through a shared client, and normalizes the JSON response into a
pydantic model.  We embed each tool as a pure function over an explicit
upstream oracle `u : Request → Response`; every tool also returns the list of
requests it issued, so "performs no network call" is a provable statement.
Python ints are `Int`, optional parameters are `Option`, decoded JSON is the
inductive `JsonValue`, and pydantic validation is the `normalize*` functions
returning `Except String _`.
-/

namespace Qualer

/-- Decoded JSON value, the result of `response.json()`. -/
inductive JsonValue where
  | null : JsonValue
  | bool : Bool → JsonValue
  | num : Int → JsonValue
  | str : String → JsonValue
  | arr : List JsonValue → JsonValue
  | obj : List (String × JsonValue) → JsonValue

/-- Dictionary lookup on a decoded JSON object, as Python `dict.get`. -/
def jlookup : List (String × JsonValue) → String → Option JsonValue
  | [], _ => none
  | (k, v) :: rest, key => if k = key then some v else jlookup rest key

/-- One outbound HTTP request made through the shared httpx client. -/
structure Request where
  method : String
  path : String
  params : List (String × JsonValue) := []
  body : Option JsonValue := none

/-- Upstream HTTP response: status code, raw body text, and parsed JSON body. -/
structure Response where
  status : Nat
  text : String
  body : JsonValue

/-- The httpx success test used by `raise_for_status`: 2xx statuses only. -/
def is2xx (n : Nat) : Bool := decide (200 ≤ n ∧ n < 300)

/-- Error taxonomy raised by the tools: pydantic/FastMCP argument validation,
`ValueError` for not-found, `RuntimeError` for other upstream statuses, and
pydantic `ValidationError` on response payloads. -/
inductive Err where
  | invalidArgument : String → Err
  | notFound : String → Err
  | upstream : String → Err
  | schemaError : String → Err

/-- ServiceOrder pydantic model: `id`, `number` and `status` are declared
without defaults, hence required; the remaining fields default to `None`. -/
structure ServiceOrder where
  id : Int
  number : String
  status : String
  client_company_id : Option Int := none
  client_company_name : Option String := none
  created_at : Option String := none
  updated_at : Option String := none

/-- Asset pydantic model: `id` and `name` required, the rest optional. -/
structure Asset where
  id : Int
  name : String
  serial_number : Option String := none
  model : Option String := none
  manufacturer : Option String := none
  client_company_id : Option Int := none
  location : Option String := none

/-- Document pydantic model: `id` and `filename` required, the rest optional. -/
structure Document where
  id : Int
  filename : String
  uploaded_at : Option String := none
  uploaded_by : Option String := none
  size_bytes : Option Int := none

/-- PaginatedResponse pydantic model (`items`, `next_cursor`, `total_count`). -/
structure PaginatedResponse (α : Type) where
  items : List α
  next_cursor : Option String := none
  total_count : Option Int := none

/-- UploadResult pydantic model. -/
structure UploadResult where
  success : Bool
  document_id : Option Int := none
  message : String

/-- Validation of a required int field, as pydantic does for `id : int`. -/
def getInt (fs : List (String × JsonValue)) (k : String) : Except String Int :=
  match jlookup fs k with
  | some (JsonValue.num i) => .ok i
  | some _ => .error ("wrong type for field: " ++ k)
  | none => .error ("missing required field: " ++ k)

/-- Validation of a required string field, as pydantic does for `number : str`. -/
def getStr (fs : List (String × JsonValue)) (k : String) : Except String String :=
  match jlookup fs k with
  | some (JsonValue.str s) => .ok s
  | some _ => .error ("wrong type for field: " ++ k)
  | none => .error ("missing required field: " ++ k)

/-- Validation of an `Optional[int] = None` field: absent or null becomes
`none`, and no default other than absence is ever introduced. -/
def getOptInt (fs : List (String × JsonValue)) (k : String) :
    Except String (Option Int) :=
  match jlookup fs k with
  | none => .ok none
  | some JsonValue.null => .ok none
  | some (JsonValue.num i) => .ok (some i)
  | some _ => .error ("wrong type for field: " ++ k)

/-- Validation of an `Optional[str] = None` field. -/
def getOptStr (fs : List (String × JsonValue)) (k : String) :
    Except String (Option String) :=
  match jlookup fs k with
  | none => .ok none
  | some JsonValue.null => .ok none
  | some (JsonValue.str s) => .ok (some s)
  | some _ => .error ("wrong type for field: " ++ k)

/-- `ServiceOrder(**data)`: pydantic validation of a service-order payload,
field by field; the first failing field aborts with its error. -/
def normalizeServiceOrder (fs : List (String × JsonValue)) :
    Except String ServiceOrder :=
  match getInt fs "id" with
  | .error e => .error e
  | .ok i =>
    match getStr fs "number" with
    | .error e => .error e
    | .ok n =>
      match getStr fs "status" with
      | .error e => .error e
      | .ok st =>
        match getOptInt fs "client_company_id" with
        | .error e => .error e
        | .ok cci =>
          match getOptStr fs "client_company_name" with
          | .error e => .error e
          | .ok ccn =>
            match getOptStr fs "created_at" with
            | .error e => .error e
            | .ok ca =>
              match getOptStr fs "updated_at" with
              | .error e => .error e
              | .ok ua => .ok ⟨i, n, st, cci, ccn, ca, ua⟩

/-- `Asset(**data)`: pydantic validation of an asset payload. -/
def normalizeAsset (fs : List (String × JsonValue)) : Except String Asset :=
  match getInt fs "id" with
  | .error e => .error e
  | .ok i =>
    match getStr fs "name" with
    | .error e => .error e
    | .ok nm =>
      match getOptStr fs "serial_number" with
      | .error e => .error e
      | .ok sn =>
        match getOptStr fs "model" with
        | .error e => .error e
        | .ok md =>
          match getOptStr fs "manufacturer" with
          | .error e => .error e
          | .ok mf =>
            match getOptInt fs "client_company_id" with
            | .error e => .error e
            | .ok cci =>
              match getOptStr fs "location" with
              | .error e => .error e
              | .ok loc => .ok ⟨i, nm, sn, md, mf, cci, loc⟩

/-- `Document(**doc)`: pydantic validation of a document payload. -/
def normalizeDocument (fs : List (String × JsonValue)) :
    Except String Document :=
  match getInt fs "id" with
  | .error e => .error e
  | .ok i =>
    match getStr fs "filename" with
    | .error e => .error e
    | .ok fn =>
      match getOptStr fs "uploaded_at" with
      | .error e => .error e
      | .ok ua =>
        match getOptStr fs "uploaded_by" with
        | .error e => .error e
        | .ok ub =>
          match getOptInt fs "size_bytes" with
          | .error e => .error e
          | .ok sz => .ok ⟨i, fn, ua, ub, sz⟩

example : normalizeServiceOrder
    [("id", JsonValue.num 1), ("number", JsonValue.str "SO-1"),
     ("status", JsonValue.str "Open")]
    = .ok ⟨1, "SO-1", "Open", none, none, none, none⟩ := rfl

example : normalizeServiceOrder
    [("id", JsonValue.num 1), ("number", JsonValue.str "SO-1")]
    = .error "missing required field: status" := rfl

/-- Value of a base64 alphabet character, `none` for anything else. -/
def b64CharVal (c : Char) : Option Nat :=
  if 'A' ≤ c ∧ c ≤ 'Z' then some (c.toNat - 65)
  else if 'a' ≤ c ∧ c ≤ 'z' then some (c.toNat - 97 + 26)
  else if '0' ≤ c ∧ c ≤ '9' then some (c.toNat - 48 + 52)
  else if c = '+' then some 62
  else if c = '/' then some 63
  else none

/-- Model of the decode loop of `binascii.a2b_base64` in its default
non-strict mode, as reached by `base64.b64decode` in
`upload_document_to_service_order`.  State mirrors the CPython loop: the
position inside the current 4-character quad, the carried leftover bits of
the last data character, the count of padding characters seen for the current
quad, and the bytes emitted so far (in reverse).  A data character emits its
byte eagerly and resets the padding count; characters outside the alphabet
are discarded; `=` is counted only once the quad holds at least two data
characters, and decoding ends successfully only when enough `=` arrive to
complete the quad (so a lone `=` after two data characters is NOT enough); a
quad left incomplete at the end of input raises `binascii.Error`. -/
def b64Loop : List Char → Nat → Nat → Nat → List Nat → Except String (List Nat)
  | [], 0, _, _, out => .ok out.reverse
  | [], 1, _, _, _ =>
      .error
        "Invalid base64-encoded string: number of data characters cannot be 1 more than a multiple of 4"
  | [], _, _, _, _ => .error "Incorrect padding"
  | c :: cs, quadPos, leftchar, pads, out =>
    if c = '=' then
      if 2 ≤ quadPos then
        if 4 ≤ quadPos + (pads + 1) then .ok out.reverse
        else b64Loop cs quadPos leftchar (pads + 1) out
      else b64Loop cs quadPos leftchar pads out
    else
      match b64CharVal c with
      | some v =>
        match quadPos with
        | 0 => b64Loop cs 1 v 0 out
        | 1 => b64Loop cs 2 (v % 16) 0 ((leftchar * 4 + v / 16) :: out)
        | 2 => b64Loop cs 3 (v % 4) 0 ((leftchar * 16 + v / 4) :: out)
        | _ => b64Loop cs 0 0 0 ((leftchar * 64 + v) :: out)
      | none => b64Loop cs quadPos leftchar pads out

/-- `base64.b64decode(content_base64)` on a `str` argument: the string is
first encoded as ASCII (`ValueError` on any non-ASCII character, as in
`base64._bytes_from_decode_data`), then decoded by the non-strict
`binascii.a2b_base64` loop.  Bytes on success, exception message on failure. -/
def b64decode (s : String) : Except String (List Nat) :=
  if s.toList.all (fun c => c.toNat < 128) then
    b64Loop s.toList 0 0 0 []
  else
    .error "string argument should contain only ASCII characters"

example : b64decode "YWJj" = .ok [97, 98, 99] := rfl
example : b64decode "YQ==" = .ok [97] := rfl
example : b64decode "YWI=" = .ok [97, 98] := rfl
example : b64decode "abc" = .error "Incorrect padding" := rfl
example : b64decode "YQ=" = .error "Incorrect padding" := rfl
example : b64decode "ab=" = .error "Incorrect padding" := rfl
example : b64decode "YQ=A" = .error "Incorrect padding" := rfl
example : b64decode "YQ"
    = .error "Incorrect padding" := rfl
example : b64decode "Y"
    = .error
      "Invalid base64-encoded string: number of data characters cannot be 1 more than a multiple of 4" :=
  rfl
example : b64decode "é"
    = .error "string argument should contain only ASCII characters" := rfl
example : b64decode "YQ==é"
    = .error "string argument should contain only ASCII characters" := rfl
example : b64decode "====" = .ok [] := rfl
example : b64decode "!!!!" = .ok [] := rfl
example : b64decode "=YWJj" = .ok [97, 98, 99] := rfl
example : b64decode "YQ==YQ==" = .ok [97] := rfl
example : b64decode "Zg==YQ" = .ok [102] := rfl
example : b64decode "A==="
    = .error
      "Invalid base64-encoded string: number of data characters cannot be 1 more than a multiple of 4" :=
  rfl

/-- Map a pydantic validation failure on a response payload into the error
taxonomy: it escapes the `except httpx.HTTPStatusError` handler untouched. -/
def liftSchema : Except String α → Except Err α
  | .ok a => .ok a
  | .error e => .error (Err.schemaError e)

/-- The `RuntimeError` message used on non-2xx, non-404 statuses: it carries
the numeric status code and the response body text verbatim. -/
def apiErrorMessage (resp : Response) : String :=
  "API error: " ++ toString resp.status ++ " - " ++ resp.text

/-- Parsing of `data.get(key, [])` followed by a comprehension constructing
one pydantic model per item: an absent key yields the empty list, a JSON
array is normalized element by element, anything else raises. -/
def parseItems (fs : List (String × JsonValue)) (key : String)
    (norm : List (String × JsonValue) → Except String α) :
    Except String (List α) :=
  match jlookup fs key with
  | none => .ok []
  | some (JsonValue.arr xs) =>
      xs.mapM fun j =>
        match j with
        | JsonValue.obj g => norm g
        | _ => .error ("item of " ++ key ++ " is not an object")
  | some _ => .error (key ++ " is not a list")

/-- Construction of `PaginatedResponse` from a 2xx JSON body: `items` defaults
to `[]` when absent, `next_cursor` and `total_count` default to `None`. -/
def parsePaginated (fs : List (String × JsonValue))
    (norm : List (String × JsonValue) → Except String α) :
    Except String (PaginatedResponse α) :=
  match parseItems fs "items" norm with
  | .error e => .error e
  | .ok items =>
    match getOptStr fs "next_cursor" with
    | .error e => .error e
    | .ok nc =>
      match getOptInt fs "total_count" with
      | .error e => .error e
      | .ok tc => .ok ⟨items, nc, tc⟩

/-- Request built by `get_service_order`. -/
def serviceOrderReq (so_id : Int) : Request :=
  { method := "GET", path := "/api/v1/service-orders/" ++ toString so_id }

/-- Query parameters built by `search_service_orders`: `limit` always, then
`status`, `client_company_id` and `cursor` only when truthy in Python
(non-`None` and non-empty, respectively non-zero). -/
def serviceOrderSearchParams (status : Option String)
    (client_company_id : Option Int) (limit : Int) (cursor : Option String) :
    List (String × JsonValue) :=
  [("limit", JsonValue.num limit)]
    ++ (match status with
        | some s => if s = "" then [] else [("status", JsonValue.str s)]
        | none => [])
    ++ (match client_company_id with
        | some c => if c = 0 then [] else [("client_company_id", JsonValue.num c)]
        | none => [])
    ++ (match cursor with
        | some c => if c = "" then [] else [("cursor", JsonValue.str c)]
        | none => [])

/-- Request built by `search_service_orders`. -/
def serviceOrderSearchReq (status : Option String)
    (client_company_id : Option Int) (limit : Int) (cursor : Option String) :
    Request :=
  { method := "GET", path := "/api/v1/service-orders",
    params := serviceOrderSearchParams status client_company_id limit cursor }

/-- Request built by `get_asset`. -/
def assetReq (asset_id : Int) : Request :=
  { method := "GET", path := "/api/v1/assets/" ++ toString asset_id }

/-- Query parameters built by `search_assets`: `q` and `limit` always, then
`client_company_id` and `cursor` only when truthy in Python. -/
def assetSearchParams (query : String) (client_company_id : Option Int)
    (limit : Int) (cursor : Option String) : List (String × JsonValue) :=
  [("q", JsonValue.str query), ("limit", JsonValue.num limit)]
    ++ (match client_company_id with
        | some c => if c = 0 then [] else [("client_company_id", JsonValue.num c)]
        | none => [])
    ++ (match cursor with
        | some c => if c = "" then [] else [("cursor", JsonValue.str c)]
        | none => [])

/-- Request built by `search_assets`. -/
def assetSearchReq (query : String) (client_company_id : Option Int)
    (limit : Int) (cursor : Option String) : Request :=
  { method := "GET", path := "/api/v1/assets/search",
    params := assetSearchParams query client_company_id limit cursor }

/-- Request built by `upload_document_to_service_order`. -/
def uploadReq (so_id : Int) (filename : String) (content_base64 : String) :
    Request :=
  { method := "POST",
    path := "/api/v1/service-orders/" ++ toString so_id ++ "/documents",
    body := some (JsonValue.obj
      [("filename", JsonValue.str filename),
       ("content", JsonValue.str content_base64)]) }

/-- Request built by `list_service_order_documents`. -/
def documentsReq (so_id : Int) : Request :=
  { method := "GET",
    path := "/api/v1/service-orders/" ++ toString so_id ++ "/documents" }

/-- Tool `get_service_order`: one GET, `raise_for_status`, normalize; 404
becomes `ValueError` naming the id, other failures become `RuntimeError`. -/
def get_service_order (so_id : Int) (u : Request → Response) :
    Except Err ServiceOrder × List Request :=
  let req := serviceOrderReq so_id
  let resp := u req
  if is2xx resp.status then
    match resp.body with
    | JsonValue.obj fs => (liftSchema (normalizeServiceOrder fs), [req])
    | _ => (.error (Err.schemaError "payload is not an object"), [req])
  else if resp.status = 404 then
    (.error (Err.notFound ("Service order " ++ toString so_id ++ " not found")),
     [req])
  else
    (.error (Err.upstream (apiErrorMessage resp)), [req])

/-- Tool `search_service_orders`: the declared `ge=1, le=100` bound on `limit`
is validated before the body runs; in range, one GET with the filter
parameters, then `PaginatedResponse` construction from the JSON body. -/
def search_service_orders (status : Option String)
    (client_company_id : Option Int) (limit : Int) (cursor : Option String)
    (u : Request → Response) :
    Except Err (PaginatedResponse ServiceOrder) × List Request :=
  if limit < 1 ∨ 100 < limit then
    (.error (Err.invalidArgument "limit must be between 1 and 100"), [])
  else
    let req := serviceOrderSearchReq status client_company_id limit cursor
    let resp := u req
    if is2xx resp.status then
      match resp.body with
      | JsonValue.obj fs =>
          (liftSchema (parsePaginated fs normalizeServiceOrder), [req])
      | _ => (.error (Err.schemaError "payload is not an object"), [req])
    else
      (.error (Err.upstream (apiErrorMessage resp)), [req])

/-- Tool `get_asset`: one GET, `raise_for_status`, normalize; 404 becomes
`ValueError` naming the id, other failures become `RuntimeError`. -/
def get_asset (asset_id : Int) (u : Request → Response) :
    Except Err Asset × List Request :=
  let req := assetReq asset_id
  let resp := u req
  if is2xx resp.status then
    match resp.body with
    | JsonValue.obj fs => (liftSchema (normalizeAsset fs), [req])
    | _ => (.error (Err.schemaError "payload is not an object"), [req])
  else if resp.status = 404 then
    (.error (Err.notFound ("Asset " ++ toString asset_id ++ " not found")),
     [req])
  else
    (.error (Err.upstream (apiErrorMessage resp)), [req])

/-- Tool `search_assets`: `limit` validated first, then one GET against the
server-side search endpoint with `q` and the optional filters. -/
def search_assets (query : String) (client_company_id : Option Int)
    (limit : Int) (cursor : Option String) (u : Request → Response) :
    Except Err (PaginatedResponse Asset) × List Request :=
  if limit < 1 ∨ 100 < limit then
    (.error (Err.invalidArgument "limit must be between 1 and 100"), [])
  else
    let req := assetSearchReq query client_company_id limit cursor
    let resp := u req
    if is2xx resp.status then
      match resp.body with
      | JsonValue.obj fs => (liftSchema (parsePaginated fs normalizeAsset), [req])
      | _ => (.error (Err.schemaError "payload is not an object"), [req])
    else
      (.error (Err.upstream (apiErrorMessage resp)), [req])

/-- Tool `upload_document_to_service_order`: base64 is validated before any
request; a decode failure returns a structured failure result immediately.
On a 2xx response the result carries `data.get("id")` and a message with the
decoded byte count; on other statuses the failure message carries the status
code and body text verbatim. -/
def upload_document_to_service_order (so_id : Int) (filename : String)
    (content_base64 : String) (u : Request → Response) :
    Except Err UploadResult × List Request :=
  match b64decode content_base64 with
  | .error e =>
      (.ok ⟨false, none, "Invalid base64 encoding: " ++ e⟩, [])
  | .ok content_bytes =>
    let req := uploadReq so_id filename content_base64
    let resp := u req
    if is2xx resp.status then
      match resp.body with
      | JsonValue.obj fs =>
        match getOptInt fs "id" with
        | .ok docId =>
            (.ok ⟨true, docId,
              "Uploaded " ++ filename ++ " ("
                ++ toString content_bytes.length ++ " bytes)"⟩, [req])
        | .error e => (.error (Err.schemaError e), [req])
      | _ => (.error (Err.schemaError "payload is not an object"), [req])
    else
      (.ok ⟨false, none,
        "Upload failed: " ++ toString resp.status ++ " - " ++ resp.text⟩,
       [req])

/-- Tool `list_service_order_documents`: one GET, `data.get("documents", [])`
normalized per document; 404 becomes `ValueError` naming the id. -/
def list_service_order_documents (so_id : Int) (u : Request → Response) :
    Except Err (List Document) × List Request :=
  let req := documentsReq so_id
  let resp := u req
  if is2xx resp.status then
    match resp.body with
    | JsonValue.obj fs =>
        (liftSchema (parseItems fs "documents" normalizeDocument), [req])
    | _ => (.error (Err.schemaError "payload is not an object"), [req])
  else if resp.status = 404 then
    (.error (Err.notFound ("Service order " ++ toString so_id ++ " not found")),
     [req])
  else
    (.error (Err.upstream (apiErrorMessage resp)), [req])

/-- ASCII lowercasing of one character, used by the case-insensitive matcher. -/
def lowerChar (c : Char) : Char :=
  if 'A' ≤ c ∧ c ≤ 'Z' then Char.ofNat (c.toNat + 32) else c

/-- Whether `needle` occurs as a contiguous substring of `hay`. -/
def isSubstr (needle : List Char) : List Char → Bool
  | [] => needle.isEmpty
  | c :: rest => needle.isPrefixOf (c :: rest) || isSubstr needle rest

/-- Case-insensitive substring test: both sides are lowercased first. -/
def containsCI (hay needle : String) : Bool :=
  isSubstr (needle.toList.map lowerChar) (hay.toList.map lowerChar)

/-- Modelled from the spec: the free-text matcher of the Query/Filter Engine's
client-side fallback, which is not present in `src/` (only the server-side
`search_assets` variant is).  Per the spec, the query matches a record when the
query substring is found case-insensitively in ANY of the declared searchable
fields of Asset (name, serial number, model, manufacturer); fields absent on a
record are skipped and never treated as a match. -/
def asset_matches_query (q : String) (a : Asset) : Bool :=
  containsCI a.name q
    || (match a.serial_number with | some s => containsCI s q | none => false)
    || (match a.model with | some s => containsCI s q | none => false)
    || (match a.manufacturer with | some s => containsCI s q | none => false)

/-- Modelled from the spec: the client-side filtering fallback of the
Query/Filter Engine for `search assets`, which is not present in `src/`.  Per
the spec, the engine filters the already-fetched collection locally, computes
the total count of matching records BEFORE truncating to `limit`, returns the
matching records truncated to `limit`, and produces no continuation token. -/
def client_side_search_assets (q : String) (limit : Nat) (assets : List Asset) :
    PaginatedResponse Asset :=
  let matching := assets.filter (asset_matches_query q)
  { items := matching.take limit,
    next_cursor := none,
    total_count := some (matching.length : Int) }

/-- Fixed in-memory collection of 10 assets of which exactly 3 contain the
query substring "CAL" case-insensitively in some searchable field. -/
def tenAssets : List Asset :=
  [⟨1, "Caliper A", some "SN-001", none, some "Mitutoyo", none, none⟩,
   ⟨2, "Multimeter", some "XCAL99", some "87V", some "Fluke", none, none⟩,
   ⟨3, "Pressure Gauge", some "PG-7", some "CalPro 100", none, none, none⟩,
   ⟨4, "Torque Wrench", some "TW-4", some "TQ-10", some "ACME", none, none⟩,
   ⟨5, "Micrometer", none, some "MM-25", some "Mitutoyo", none, none⟩,
   ⟨6, "Thermometer", some "TH-9", none, some "Omega", none, none⟩,
   ⟨7, "Load Cell", some "LC-2", some "LC200", none, none, none⟩,
   ⟨8, "Balance", some "BA-3", some "B300", some "Ohaus", none, none⟩,
   ⟨9, "Power Supply", some "PS-5", some "PSU-500", some "Keysight", none, none⟩,
   ⟨10, "Signal Generator", some "SG-1", some "SG100", some "Keysight", none, none⟩]

example : (tenAssets.filter (asset_matches_query "CAL")).length = 3 := by decide

/-- Stub upstream answering every request with an empty 2xx JSON object. -/
def stub200 : Request → Response := fun _ => ⟨200, "", JsonValue.obj []⟩

/-- Stub upstream answering every request with a plain 404. -/
def stub404 : Request → Response := fun _ => ⟨404, "not found", JsonValue.null⟩

/-- Stub upstream answering every request with a 500 and a body text. -/
def stub500 : Request → Response := fun _ => ⟨500, "boom", JsonValue.null⟩

/-- Stub upstream answering every request with a 2xx page whose body carries
the continuation token "tok-next". -/
def stubCursor : Request → Response :=
  fun _ => ⟨200, "", JsonValue.obj [("next_cursor", JsonValue.str "tok-next")]⟩

/-- What pydantic accepts for an `Optional[int] = None` field: the key absent,
an explicit JSON null, or an int. -/
def wellTypedOptInt (o : Option JsonValue) : Prop :=
  o = none ∨ o = some JsonValue.null ∨ ∃ i, o = some (JsonValue.num i)

/-- What pydantic accepts for an `Optional[str] = None` field: the key absent,
an explicit JSON null, or a string. -/
def wellTypedOptStr (o : Option JsonValue) : Prop :=
  o = none ∨ o = some JsonValue.null ∨ ∃ s, o = some (JsonValue.str s)

/-- The value an `Optional[str]` field takes from a looked-up JSON entry:
absent unless the entry is a string. -/
def optStrVal : Option JsonValue → Option String
  | some (JsonValue.str s) => some s
  | _ => none

/-- The value an `Optional[int]` field takes from a looked-up JSON entry:
absent unless the entry is an int. -/
def optIntVal : Option JsonValue → Option Int
  | some (JsonValue.num i) => some i
  | _ => none

lemma is2xx_200 : is2xx 200 = true := rfl

lemma is2xx_404 : is2xx 404 = false := rfl

/-- Success of a required int field determines the payload entry. -/
lemma jlookup_getInt_ok (p : List (String × JsonValue)) (k : String) (i : Int)
    (h : getInt p k = .ok i) : jlookup p k = some (JsonValue.num i) := by
  unfold getInt at h
  split at h <;> simp_all

/-- Success of a required string field determines the payload entry. -/
lemma jlookup_getStr_ok (p : List (String × JsonValue)) (k : String) (s : String)
    (h : getStr p k = .ok s) : jlookup p k = some (JsonValue.str s) := by
  unfold getStr at h
  split at h <;> simp_all

/-- An absent optional int field validates to `none`, never to a default. -/
lemma getOptInt_none_of (p : List (String × JsonValue)) (k : String)
    (v : Option Int) (h : getOptInt p k = .ok v) (hn : jlookup p k = none) :
    v = none := by
  unfold getOptInt at h
  rw [hn] at h
  exact (Except.ok.inj h).symm

/-- An absent optional string field validates to `none`, never to a default. -/
lemma getOptStr_none_of (p : List (String × JsonValue)) (k : String)
    (v : Option String) (h : getOptStr p k = .ok v) (hn : jlookup p k = none) :
    v = none := by
  unfold getOptStr at h
  rw [hn] at h
  exact (Except.ok.inj h).symm

/-- C1: in the client-side filtering fallback for asset search, the free-text
query matches case-insensitively against the declared searchable fields, the
returned total equals the number of matching records computed before
truncation to the limit, the item list is the matching records truncated to
the limit, and no continuation token is produced; in particular, over a fixed
set of 10 assets of which 3 match the query, a search with limit 2 returns
exactly 2 items and a total of 3. -/
theorem c1_client_side_filtering :
    (∀ (q : String) (limit : Nat) (assets : List Asset),
      (client_side_search_assets q limit assets).items
          = (assets.filter (asset_matches_query q)).take limit
        ∧ (client_side_search_assets q limit assets).total_count
          = some ((assets.filter (asset_matches_query q)).length : Int)
        ∧ (client_side_search_assets q limit assets).next_cursor = none)
    ∧ (tenAssets.filter (asset_matches_query "CAL")).length = 3
    ∧ (client_side_search_assets "CAL" 2 tenAssets).items.length = 2
    ∧ (client_side_search_assets "CAL" 2 tenAssets).total_count = some 3 := by
  refine ⟨fun q limit assets => ⟨rfl, rfl, rfl⟩, by decide, by decide, by decide⟩

/-- C2: for every limit outside the closed range 1..100, both search tools
fail with the declared argument-validation error and issue no request; the
limit is never clamped into range. -/
theorem c2_limit_validation (status : Option String) (ccid : Option Int)
    (limit : Int) (cursor : Option String) (q : String)
    (u : Request → Response) (h : limit < 1 ∨ 100 < limit) :
    search_service_orders status ccid limit cursor u
        = (.error (Err.invalidArgument "limit must be between 1 and 100"), [])
      ∧ search_assets q ccid limit cursor u
        = (.error (Err.invalidArgument "limit must be between 1 and 100"), []) := by
  constructor
  · unfold search_service_orders
    rw [if_pos h]
  · unfold search_assets
    rw [if_pos h]

/-- Witness for C2 at the concrete out-of-range limit 0. -/
theorem c2_limit_validation_witness :
    ((0 : Int) < 1 ∨ (100 : Int) < 0)
      ∧ search_service_orders none none 0 none stub200
        = (.error (Err.invalidArgument "limit must be between 1 and 100"), [])
      ∧ search_assets "x" none 0 none stub200
        = (.error (Err.invalidArgument "limit must be between 1 and 100"), []) :=
  ⟨by decide,
   (c2_limit_validation none none 0 none "x" stub200 (by decide)).1,
   (c2_limit_validation none none 0 none "x" stub200 (by decide)).2⟩

/-- C3: when the upstream answers 404, `get_service_order` and `get_asset`
fail with a not-found error whose message names the specific requested id,
after exactly the one request. -/
theorem c3_not_found_references_id (so_id asset_id : Int)
    (u : Request → Response)
    (h1 : (u (serviceOrderReq so_id)).status = 404)
    (h2 : (u (assetReq asset_id)).status = 404) :
    get_service_order so_id u
        = (.error (Err.notFound
            ("Service order " ++ toString so_id ++ " not found")),
           [serviceOrderReq so_id])
      ∧ get_asset asset_id u
        = (.error (Err.notFound ("Asset " ++ toString asset_id ++ " not found")),
           [assetReq asset_id]) := by
  constructor
  · simp [get_service_order, h1, is2xx]
  · simp [get_asset, h2, is2xx]

/-- Witness for C3 at ids 7 and 9 against a stub that always answers 404. -/
theorem c3_not_found_witness :
    (stub404 (serviceOrderReq 7)).status = 404
      ∧ get_service_order 7 stub404
        = (.error (Err.notFound "Service order 7 not found"),
           [serviceOrderReq 7])
      ∧ get_asset 9 stub404
        = (.error (Err.notFound "Asset 9 not found"), [assetReq 9]) :=
  ⟨rfl,
   (c3_not_found_references_id 7 9 stub404 rfl rfl).1,
   (c3_not_found_references_id 7 9 stub404 rfl rfl).2⟩

/-- C4: when the supplied content is not valid base64, the upload tool returns
a failure result whose message names the encoding problem and issues no
request: the decode happens before any network call. -/
theorem c4_invalid_base64_no_network (so_id : Int) (filename content e : String)
    (u : Request → Response) (h : b64decode content = .error e) :
    upload_document_to_service_order so_id filename content u
      = (.ok ⟨false, none, "Invalid base64 encoding: " ++ e⟩, []) := by
  unfold upload_document_to_service_order
  rw [h]

/-- Witness for C4 at the concrete invalid base64 string "abc". -/
theorem c4_invalid_base64_witness :
    b64decode "abc" = .error "Incorrect padding"
      ∧ upload_document_to_service_order 1 "cert.pdf" "abc" stub200
        = (.ok ⟨false, none, "Invalid base64 encoding: Incorrect padding"⟩, []) :=
  ⟨rfl, c4_invalid_base64_no_network 1 "cert.pdf" "abc" "Incorrect padding"
    stub200 rfl⟩

/-- C6: whenever a ServiceOrder payload normalizes successfully, the
identifier and number round-trip exactly from the payload, and every optional
field absent from the payload is absent (`none`) in the normalized record -
never defaulted to an empty string or zero - so callers can distinguish
unknown from empty. -/
theorem c6_normalization_roundtrip (p : List (String × JsonValue))
    (so : ServiceOrder) (h : normalizeServiceOrder p = .ok so) :
    jlookup p "id" = some (JsonValue.num so.id)
      ∧ jlookup p "number" = some (JsonValue.str so.number)
      ∧ (jlookup p "client_company_id" = none → so.client_company_id = none)
      ∧ (jlookup p "client_company_name" = none → so.client_company_name = none)
      ∧ (jlookup p "created_at" = none → so.created_at = none)
      ∧ (jlookup p "updated_at" = none → so.updated_at = none) := by
  unfold normalizeServiceOrder at h
  split at h
  · exact absurd h (by simp)
  rename_i i hi
  split at h
  · exact absurd h (by simp)
  rename_i n hn
  split at h
  · exact absurd h (by simp)
  rename_i st hst
  split at h
  · exact absurd h (by simp)
  rename_i cci hcci
  split at h
  · exact absurd h (by simp)
  rename_i ccn hccn
  split at h
  · exact absurd h (by simp)
  rename_i ca hca
  split at h
  · exact absurd h (by simp)
  rename_i ua hua
  injection h with h2
  subst h2
  refine ⟨jlookup_getInt_ok p "id" i hi, jlookup_getStr_ok p "number" n hn,
    fun hx => getOptInt_none_of p "client_company_id" cci hcci hx,
    fun hx => getOptStr_none_of p "client_company_name" ccn hccn hx,
    fun hx => getOptStr_none_of p "created_at" ca hca hx,
    fun hx => getOptStr_none_of p "updated_at" ua hua hx⟩

/-- Concrete ServiceOrder payload with only the required fields present. -/
def soPayload : List (String × JsonValue) :=
  [("id", JsonValue.num 5), ("number", JsonValue.str "SO-5"),
   ("status", JsonValue.str "Open")]

/-- Witness for C6 at a concrete payload whose optional fields are absent. -/
theorem c6_normalization_roundtrip_witness :
    jlookup soPayload "id" = some (JsonValue.num 5)
      ∧ jlookup soPayload "number" = some (JsonValue.str "SO-5")
      ∧ (ServiceOrder.mk 5 "SO-5" "Open" none none none none).client_company_id
        = none
      ∧ (ServiceOrder.mk 5 "SO-5" "Open" none none none none).client_company_name
        = none
      ∧ (ServiceOrder.mk 5 "SO-5" "Open" none none none none).created_at = none
      ∧ (ServiceOrder.mk 5 "SO-5" "Open" none none none none).updated_at = none := by
  have h := c6_normalization_roundtrip soPayload
    (ServiceOrder.mk 5 "SO-5" "Open" none none none none) rfl
  exact ⟨h.1, h.2.1, h.2.2.1 rfl, h.2.2.2.1 rfl, h.2.2.2.2.1 rfl,
    h.2.2.2.2.2 rfl⟩

/-- A non-empty cursor always appears verbatim among the service-order search
parameters. -/
lemma so_cursor_param (status : Option String) (ccid : Option Int)
    (limit : Int) (c : String) (hc : c ≠ "") :
    jlookup (serviceOrderSearchParams status ccid limit (some c)) "cursor"
      = some (JsonValue.str c) := by
  rcases status with _ | s <;> rcases ccid with _ | cc <;>
    · simp only [serviceOrderSearchParams, hc]
      split_ifs <;> simp_all [jlookup]

/-- A non-empty cursor always appears verbatim among the asset search
parameters. -/
lemma asset_cursor_param (q : String) (ccid : Option Int) (limit : Int)
    (c : String) (hc : c ≠ "") :
    jlookup (assetSearchParams q ccid limit (some c)) "cursor"
      = some (JsonValue.str c) := by
  rcases ccid with _ | cc <;>
    · simp only [assetSearchParams, hc]
      split_ifs <;> simp_all [jlookup]

/-- Counterexample to C7: supplying the cursor string "" to a search makes the
single upstream call WITHOUT any cursor parameter - the falsy cursor is
dropped rather than forwarded unchanged. -/
theorem c7_counterexample :
    (search_service_orders none none 25 (some "") stubCursor).2
        = [serviceOrderSearchReq none none 25 (some "")]
      ∧ jlookup (serviceOrderSearchReq none none 25 (some "")).params "cursor"
        = none
      ∧ (search_assets "x" none 25 (some "") stubCursor).2
        = [assetSearchReq "x" none 25 (some "")]
      ∧ jlookup (assetSearchReq "x" none 25 (some "")).params "cursor"
        = none :=
  ⟨rfl, rfl, rfl, rfl⟩

/-- C7 amended: for every NON-EMPTY cursor string supplied to a search
operation, the operation forwards that cursor unchanged as the cursor
parameter of the single upstream call and returns the continuation token
yielded by the upstream response unchanged; the engine never decodes or
constructs cursors itself. -/
theorem c7_cursor_passthrough_amended (status : Option String)
    (ccid : Option Int) (limit : Int) (c t q : String)
    (u : Request → Response)
    (hl1 : 1 ≤ limit) (hl2 : limit ≤ 100) (hc : c ≠ "")
    (hso : u (serviceOrderSearchReq status ccid limit (some c))
        = ⟨200, "", JsonValue.obj [("next_cursor", JsonValue.str t)]⟩)
    (has : u (assetSearchReq q ccid limit (some c))
        = ⟨200, "", JsonValue.obj [("next_cursor", JsonValue.str t)]⟩) :
    jlookup (serviceOrderSearchReq status ccid limit (some c)).params "cursor"
        = some (JsonValue.str c)
      ∧ search_service_orders status ccid limit (some c) u
        = (.ok ⟨[], some t, none⟩,
           [serviceOrderSearchReq status ccid limit (some c)])
      ∧ jlookup (assetSearchReq q ccid limit (some c)).params "cursor"
        = some (JsonValue.str c)
      ∧ search_assets q ccid limit (some c) u
        = (.ok ⟨[], some t, none⟩, [assetSearchReq q ccid limit (some c)]) := by
  refine ⟨so_cursor_param status ccid limit c hc, ?_,
    asset_cursor_param q ccid limit c hc, ?_⟩
  · unfold search_service_orders
    rw [if_neg (show ¬(limit < 1 ∨ 100 < limit) from by omega)]
    simp only [hso]
    rfl
  · unfold search_assets
    rw [if_neg (show ¬(limit < 1 ∨ 100 < limit) from by omega)]
    simp only [has]
    rfl

/-- Witness for C7 amended at cursor "abc" against a stub yielding the
continuation token "tok-next". -/
theorem c7_cursor_passthrough_witness :
    jlookup (serviceOrderSearchReq none none 25 (some "abc")).params "cursor"
        = some (JsonValue.str "abc")
      ∧ search_service_orders none none 25 (some "abc") stubCursor
        = (.ok ⟨[], some "tok-next", none⟩,
           [serviceOrderSearchReq none none 25 (some "abc")])
      ∧ jlookup (assetSearchReq "x" none 25 (some "abc")).params "cursor"
        = some (JsonValue.str "abc")
      ∧ search_assets "x" none 25 (some "abc") stubCursor
        = (.ok ⟨[], some "tok-next", none⟩,
           [assetSearchReq "x" none 25 (some "abc")]) :=
  c7_cursor_passthrough_amended none none 25 "abc" "tok-next" "x" stubCursor
    (by decide) (by decide) (by decide) rfl rfl

/-- C8: whenever the upstream answers a non-2xx status other than 404, every
fetch, search and list operation fails with an upstream error whose message
carries the numeric status code and the response body text verbatim, and the
upload tool returns a failure result whose message carries the same status
code and body text verbatim. -/
theorem c8_upstream_error_verbatim (so_id asset_id doc_id : Int)
    (status : Option String) (ccid : Option Int) (limit : Int)
    (cursor : Option String) (q filename content : String) (bs : List Nat)
    (u : Request → Response)
    (hl1 : 1 ≤ limit) (hl2 : limit ≤ 100)
    (hdec : b64decode content = .ok bs)
    (h2xx : ∀ r, is2xx (u r).status = false)
    (h404 : ∀ r, (u r).status ≠ 404) :
    get_service_order so_id u
        = (.error (Err.upstream ("API error: "
            ++ toString (u (serviceOrderReq so_id)).status ++ " - "
            ++ (u (serviceOrderReq so_id)).text)), [serviceOrderReq so_id])
      ∧ get_asset asset_id u
        = (.error (Err.upstream ("API error: "
            ++ toString (u (assetReq asset_id)).status ++ " - "
            ++ (u (assetReq asset_id)).text)), [assetReq asset_id])
      ∧ search_service_orders status ccid limit cursor u
        = (.error (Err.upstream ("API error: "
            ++ toString (u (serviceOrderSearchReq status ccid limit cursor)).status
            ++ " - " ++ (u (serviceOrderSearchReq status ccid limit cursor)).text)),
           [serviceOrderSearchReq status ccid limit cursor])
      ∧ search_assets q ccid limit cursor u
        = (.error (Err.upstream ("API error: "
            ++ toString (u (assetSearchReq q ccid limit cursor)).status
            ++ " - " ++ (u (assetSearchReq q ccid limit cursor)).text)),
           [assetSearchReq q ccid limit cursor])
      ∧ list_service_order_documents doc_id u
        = (.error (Err.upstream ("API error: "
            ++ toString (u (documentsReq doc_id)).status ++ " - "
            ++ (u (documentsReq doc_id)).text)), [documentsReq doc_id])
      ∧ upload_document_to_service_order so_id filename content u
        = (.ok ⟨false, none, "Upload failed: "
            ++ toString (u (uploadReq so_id filename content)).status ++ " - "
            ++ (u (uploadReq so_id filename content)).text⟩,
           [uploadReq so_id filename content]) := by
  refine ⟨?_, ?_, ?_, ?_, ?_, ?_⟩
  · simp [get_service_order, h2xx, h404, apiErrorMessage]
  · simp [get_asset, h2xx, h404, apiErrorMessage]
  · unfold search_service_orders
    rw [if_neg (show ¬(limit < 1 ∨ 100 < limit) from by omega)]
    simp [h2xx, apiErrorMessage]
  · unfold search_assets
    rw [if_neg (show ¬(limit < 1 ∨ 100 < limit) from by omega)]
    simp [h2xx, apiErrorMessage]
  · simp [list_service_order_documents, h2xx, h404, apiErrorMessage]
  · unfold upload_document_to_service_order
    rw [hdec]
    simp [h2xx]

/-- Witness for C8 against a stub that always answers 500 with body "boom". -/
theorem c8_upstream_error_witness :
    get_service_order 1 stub500
        = (.error (Err.upstream "API error: 500 - boom"), [serviceOrderReq 1])
      ∧ get_asset 2 stub500
        = (.error (Err.upstream "API error: 500 - boom"), [assetReq 2])
      ∧ search_service_orders none none 25 none stub500
        = (.error (Err.upstream "API error: 500 - boom"),
           [serviceOrderSearchReq none none 25 none])
      ∧ search_assets "x" none 25 none stub500
        = (.error (Err.upstream "API error: 500 - boom"),
           [assetSearchReq "x" none 25 none])
      ∧ list_service_order_documents 3 stub500
        = (.error (Err.upstream "API error: 500 - boom"), [documentsReq 3])
      ∧ upload_document_to_service_order 1 "cert.pdf" "YQ==" stub500
        = (.ok ⟨false, none, "Upload failed: 500 - boom"⟩,
           [uploadReq 1 "cert.pdf" "YQ=="]) :=
  c8_upstream_error_verbatim 1 2 3 none none 25 none "x" "cert.pdf" "YQ=="
    [97] stub500 (by decide) (by decide) rfl (fun _ => rfl)
    (fun _ => by simp [stub500])

/-- C9: each falsy filter is dropped individually, whatever the other
parameters are: a call with an empty-string status, or a zero
client-company-id, or an empty-string cursor, issues exactly the request of
the same call with that one parameter not supplied at all, and returns the
same result - both at the level of the whole operation and of the built
parameter list, for both search tools. -/
theorem c9_falsy_filters_omitted (status : Option String) (ccid : Option Int)
    (limit : Int) (cursor : Option String) (q : String)
    (u : Request → Response) :
    (search_service_orders (some "") ccid limit cursor u
        = search_service_orders none ccid limit cursor u
      ∧ serviceOrderSearchParams (some "") ccid limit cursor
        = serviceOrderSearchParams none ccid limit cursor)
    ∧ (search_service_orders status (some 0) limit cursor u
        = search_service_orders status none limit cursor u
      ∧ serviceOrderSearchParams status (some 0) limit cursor
        = serviceOrderSearchParams status none limit cursor)
    ∧ (search_service_orders status ccid limit (some "") u
        = search_service_orders status ccid limit none u
      ∧ serviceOrderSearchParams status ccid limit (some "")
        = serviceOrderSearchParams status ccid limit none)
    ∧ (search_assets q (some 0) limit cursor u
        = search_assets q none limit cursor u
      ∧ assetSearchParams q (some 0) limit cursor
        = assetSearchParams q none limit cursor)
    ∧ (search_assets q ccid limit (some "") u
        = search_assets q ccid limit none u
      ∧ assetSearchParams q ccid limit (some "")
        = assetSearchParams q ccid limit none) :=
  ⟨⟨rfl, rfl⟩, ⟨rfl, rfl⟩, ⟨rfl, rfl⟩, ⟨rfl, rfl⟩, ⟨rfl, rfl⟩⟩

/-- C10: on any 2xx response whose JSON object body lacks the items key, each
search returns an empty item list rather than failing (whatever well-typed
next_cursor and total_count entries the body carries), with a missing
next_cursor key yielding an absent cursor and a missing total_count key an
absent count (`optStrVal`/`optIntVal` of a missing key are `none`); and on
any 2xx response whose body lacks the documents key, list documents returns
the empty list rather than failing, whatever other keys the body carries. -/
theorem c10_missing_keys_empty (so_id : Int) (status : Option String)
    (ccid : Option Int) (limit : Int) (cursor : Option String) (q : String)
    (u : Request → Response)
    (hl1 : 1 ≤ limit) (hl2 : limit ≤ 100) :
    (∀ (fs : List (String × JsonValue)) (s : Nat) (txt : String),
      is2xx s = true
      → u (serviceOrderSearchReq status ccid limit cursor)
          = ⟨s, txt, JsonValue.obj fs⟩
      → jlookup fs "items" = none
      → wellTypedOptStr (jlookup fs "next_cursor")
      → wellTypedOptInt (jlookup fs "total_count")
      → search_service_orders status ccid limit cursor u
          = (.ok ⟨[], optStrVal (jlookup fs "next_cursor"),
              optIntVal (jlookup fs "total_count")⟩,
             [serviceOrderSearchReq status ccid limit cursor]))
    ∧ (∀ (fs : List (String × JsonValue)) (s : Nat) (txt : String),
      is2xx s = true
      → u (assetSearchReq q ccid limit cursor) = ⟨s, txt, JsonValue.obj fs⟩
      → jlookup fs "items" = none
      → wellTypedOptStr (jlookup fs "next_cursor")
      → wellTypedOptInt (jlookup fs "total_count")
      → search_assets q ccid limit cursor u
          = (.ok ⟨[], optStrVal (jlookup fs "next_cursor"),
              optIntVal (jlookup fs "total_count")⟩,
             [assetSearchReq q ccid limit cursor]))
    ∧ (∀ (fs : List (String × JsonValue)) (s : Nat) (txt : String),
      is2xx s = true
      → u (documentsReq so_id) = ⟨s, txt, JsonValue.obj fs⟩
      → jlookup fs "documents" = none
      → list_service_order_documents so_id u
          = (.ok [], [documentsReq so_id])) := by
  refine ⟨?_, ?_, ?_⟩
  · intro fs s txt h2 hresp hitems hnc htc
    unfold search_service_orders
    rw [if_neg (show ¬(limit < 1 ∨ 100 < limit) from by omega)]
    rcases hnc with hnc | hnc | ⟨t, hnc⟩ <;>
      rcases htc with htc | htc | ⟨m, htc⟩ <;>
        simp [hresp, h2, parsePaginated, parseItems, hitems, getOptStr, hnc,
          getOptInt, htc, liftSchema, optStrVal, optIntVal]
  · intro fs s txt h2 hresp hitems hnc htc
    unfold search_assets
    rw [if_neg (show ¬(limit < 1 ∨ 100 < limit) from by omega)]
    rcases hnc with hnc | hnc | ⟨t, hnc⟩ <;>
      rcases htc with htc | htc | ⟨m, htc⟩ <;>
        simp [hresp, h2, parsePaginated, parseItems, hitems, getOptStr, hnc,
          getOptInt, htc, liftSchema, optStrVal, optIntVal]
  · intro fs s txt h2 hresp hdocs
    simp [list_service_order_documents, hresp, h2, parseItems, hdocs,
      liftSchema]

/-- Witness for C10: an empty 2xx JSON object body for the searches, and a
body lacking documents but carrying an irrelevant next_cursor key for the
document listing. -/
theorem c10_missing_keys_witness :
    search_service_orders none none 25 none stub200
        = (.ok ⟨[], none, none⟩, [serviceOrderSearchReq none none 25 none])
      ∧ search_assets "x" none 25 none stub200
        = (.ok ⟨[], none, none⟩, [assetSearchReq "x" none 25 none])
      ∧ list_service_order_documents 4 stubCursor
        = (.ok [], [documentsReq 4]) :=
  ⟨(c10_missing_keys_empty 4 none none 25 none "x" stub200
      (by decide) (by decide)).1 [] 200 "" rfl rfl rfl (Or.inl rfl) (Or.inl rfl),
   (c10_missing_keys_empty 4 none none 25 none "x" stub200
      (by decide) (by decide)).2.1 [] 200 "" rfl rfl rfl (Or.inl rfl) (Or.inl rfl),
   (c10_missing_keys_empty 4 none none 25 none "x" stubCursor
      (by decide) (by decide)).2.2 [("next_cursor", JsonValue.str "tok-next")]
      200 "" rfl rfl rfl⟩

end Qualer
